import Mathlib

/-!
Verification development for the Milvus vector-store schema/index synthesis and
record-conversion core (`src/base/base_vector_store.py`).

The Python module is shallowly embedded: dictionaries become association lists
over a small dynamic value type `PyVal`, fallible code returns `Except`, and the
in-place mutation of caller-supplied node documents is made explicit by
returning the post-call state of the documents alongside the produced records.
-/

namespace MilvusStore

/-- A Python runtime value, as far as this module inspects one.  `vInt` and
`vFloat` are kept separate because the source distinguishes them with
`isinstance(x, int)`. -/
inductive PyVal where
  | vNone : PyVal
  | vBool (b : Bool) : PyVal
  | vInt (n : Int) : PyVal
  | vFloat (q : ℚ) : PyVal
  | vStr (s : String) : PyVal
  | vList (xs : List PyVal) : PyVal
  | vDict (kvs : List (String × PyVal)) : PyVal
deriving Repr

/-- A Python dict with string keys, as an association list (keys unique in all
dicts this module builds; insertion order is preserved, as in CPython). -/
abbrev Dict := List (String × PyVal)

/-- `d.get(k)`: the value of the first (only) pair whose key is `k`, `none`
when the key is absent. -/
def dictGet : Dict → String → Option PyVal
  | [], _ => none
  | kv :: rest, k => if kv.1 == k then some kv.2 else dictGet rest k

/-- `k in d`. -/
def dictContains (d : Dict) (k : String) : Bool :=
  d.any (fun kv => kv.1 == k)

/-- `d[k] = v` / one key of `d.update({...})`: replaces the value in place when
the key exists, appends the pair otherwise (CPython dict semantics). -/
def dictSet (d : Dict) (k : String) (v : PyVal) : Dict :=
  if dictContains d k then d.map (fun kv => if kv.1 == k then (k, v) else kv)
  else d ++ [(k, v)]

/-- Removal of a key (the effect of a successful `d.pop(k)`). -/
def dictRemove (d : Dict) (k : String) : Dict :=
  d.filter (fun kv => kv.1 != k)

/-- Python truthiness of a value, as used by `if d.get("file_path"):`. -/
def pyTruthy : PyVal → Bool
  | .vNone => false
  | .vBool b => b
  | .vInt n => n != 0
  | .vFloat q => q != 0
  | .vStr s => s != ""
  | .vList xs => !xs.isEmpty
  | .vDict kvs => !kvs.isEmpty

/-- `v is None`. -/
def pyIsNone : PyVal → Bool
  | .vNone => true
  | _ => false

/-- `isinstance(v, int)` together with the integer value: Python `bool` is a
subclass of `int`, floats and everything else are not ints. -/
def pyIsInt : PyVal → Option Int
  | .vInt n => some n
  | .vBool b => some (if b then 1 else 0)
  | _ => none

/-- Modelled from the spec: the field-name list `default_keys` is read off
`FundamentalField.model_fields` in module `types`, which is not under `src/`.
Per the spec, index 0 is the string primary-key field, index 1 the dense-vector
field, index 2 the sparse-vector field and index 3 the document-type
discriminator field. -/
def default_keys : List String :=
  ["id_", "embedding", "sparse_embedding", "payload_type"]

/-- Field names of the external `TextNode` model
(`llama_index.core.schema.TextNode.model_fields`), in declared order; each
index is named by the source's own comments at the corresponding
`add_field` call. -/
def base_node_fields : List String :=
  ["id_", "embedding", "metadata", "excluded_embed_metadata_keys",
   "excluded_llm_metadata_keys", "relationships", "metadata_template",
   "metadata_separator", "text", "mimetype", "start_char_idx", "end_char_idx",
   "metadata_seperator", "text_template"]

/-- Field names of the external `Document` model
(`langchain_core.documents.base.Document.model_fields`), in declared order;
indices 1 and 2 are named by the source's comments (metadata, page content). -/
def document_fields : List String :=
  ["id", "metadata", "page_content", "type"]

/-- Python's `s.endswith(suffix)` (kernel-reducible model of
`String.endsWith`). -/
def strEndsWith (s suffix : String) : Bool :=
  suffix.data.isSuffixOf s.data

/-- The subset of `pymilvus.DataType` this module uses. -/
inductive MilvusDataType where
  | VARCHAR | FLOAT_VECTOR | FLOAT16_VECTOR | BFLOAT16_VECTOR
  | SPARSE_FLOAT_VECTOR | JSON | ARRAY | INT64
deriving DecidableEq, Repr

/-- The error raised by `_get_datatype` (`ValueError` with the offending
datatype string). -/
inductive SchemaError where
  | invalidDatatype (datatype : String) : SchemaError
deriving DecidableEq, Repr

/-- `_get_datatype` (src lines 464-475). -/
def _get_datatype (datatype : String) : Except SchemaError MilvusDataType :=
  if datatype == "FLOAT_VECTOR" then .ok .FLOAT_VECTOR
  else if datatype == "FLOAT16_VECTOR" then .ok .FLOAT16_VECTOR
  else if datatype == "BFLOAT16_VECTOR" then .ok .BFLOAT16_VECTOR
  else .error (.invalidDatatype datatype)

/-- One field of a collection schema: the arguments of a
`schema.add_field(...)` call.  Absent keyword arguments are `none`/`false`. -/
structure FieldSchema where
  field_name : String
  datatype : MilvusDataType
  is_primary : Bool
  max_length : Option Nat
  dim : Option Nat
  element_type : Option MilvusDataType
  max_capacity : Option Nat
  nullable : Bool
deriving DecidableEq, Repr

/-- The `add_field` calls issued for a node-shaped collection
(src lines 291-355), in source order. -/
def nodeShapeFields : List FieldSchema :=
  [⟨base_node_fields[2]!, .JSON, false, none, none, none, none, false⟩,
   ⟨base_node_fields[3]!, .ARRAY, false, some 64, none, some .VARCHAR, some 16, false⟩,
   ⟨base_node_fields[4]!, .ARRAY, false, some 64, none, some .VARCHAR, some 16, false⟩,
   ⟨base_node_fields[5]!, .JSON, false, none, none, none, none, false⟩,
   ⟨base_node_fields[6]!, .VARCHAR, false, some 32, none, none, none, false⟩,
   ⟨base_node_fields[7]!, .VARCHAR, false, some 8, none, none, none, false⟩,
   ⟨base_node_fields[8]!, .VARCHAR, false, some 16384, none, none, none, false⟩,
   ⟨base_node_fields[9]!, .VARCHAR, false, some 16, none, none, none, false⟩,
   ⟨base_node_fields[10]!, .INT64, false, some 8, none, none, none, true⟩,
   ⟨base_node_fields[11]!, .INT64, false, some 8, none, none, none, true⟩,
   ⟨base_node_fields[12]!, .VARCHAR, false, some 8, none, none, none, false⟩,
   ⟨base_node_fields[13]!, .VARCHAR, false, some 64, none, none, none, false⟩]

/-- The `add_field` calls issued for a plain-document-shaped collection
(src lines 357-366). -/
def documentShapeFields : List FieldSchema :=
  [⟨document_fields[1]!, .JSON, false, none, none, none, none, false⟩,
   ⟨document_fields[2]!, .VARCHAR, false, some 16384, none, none, none, false⟩]

/-- `_setup_collection_schema` (src lines 247-367): the schema is the ordered
list of `add_field` calls.  Note that a `document_type` neither ending in
`"Node"` nor equal to `"Document"` falls through both branches and the base
schema is returned unchanged. -/
def _setup_collection_schema (document_type : String) (vector_dims : Nat)
    (dense_datatype : String) (enable_sparse : Bool) :
    Except SchemaError (List FieldSchema) :=
  match _get_datatype dense_datatype with
  | .error e => .error e
  | .ok ddt =>
    let schema : List FieldSchema :=
      [⟨default_keys[0]!, .VARCHAR, true, some 64, none, none, none, false⟩,
       ⟨default_keys[1]!, ddt, false, none, some vector_dims, none, none, false⟩]
    let schema := schema ++
      (if enable_sparse then
        [⟨default_keys[2]!, .SPARSE_FLOAT_VECTOR, false, none, none, none, none, false⟩]
       else [])
    let schema := schema ++
      [⟨default_keys[3]!, .VARCHAR, false, some 16, none, none, none, false⟩]
    let schema :=
      if strEndsWith document_type "Node" then schema ++ nodeShapeFields
      else if document_type == "Document" then schema ++ documentShapeFields
      else schema
    .ok schema

/-- One `index_params.add_index(...)` call; absent keyword arguments are
`none`. -/
structure IndexEntry where
  field_name : String
  index_name : String
  index_type : Option String
  metric_type : Option String
  params : Option Dict
deriving Repr

/-- `_setup_collection_index` (src lines 369-415): the index plan is the
ordered list of `add_index` calls.  The sparse index's metric is the literal
`"IP"` in the source. -/
def _setup_collection_index (index_algo : String) (dense_search_metric : String)
    (params : Option Dict) (enable_sparse : Bool) (sparse_index_type : String)
    (sparse_params : Option Dict) : List IndexEntry :=
  let params := params.getD [("nlist", .vInt 128)]
  let sparse_params := sparse_params.getD [("drop_ratio_build", .vFloat (2/10))]
  [⟨default_keys[0]!, "unique_id", none, none, none⟩,
   ⟨default_keys[1]!, "dense_representation", some index_algo,
      some dense_search_metric, some params⟩] ++
  (if enable_sparse then
    [⟨default_keys[2]!, "sparse_representation", some sparse_index_type,
       some "IP", some sparse_params⟩]
   else [])

/-- One value of a node's `relationships` mapping
(`RelatedNodeInfo`): the conversion only touches its `metadata`. -/
structure RelInfo where
  node_id : String
  metadata : Dict
deriving Repr

/-- A llama-index `BaseNode`/`TextNode`, restricted to the fields
`_convert_upsert_data` reads or writes, plus the body text. -/
structure NodeDoc where
  id_ : String
  embedding : Option (List ℚ)
  metadata : Dict
  relationships : List (String × RelInfo)
  text : String
deriving Repr

/-- A langchain `Document`: `id` optional, `type` the literal discriminator
(always `"Document"` for real langchain documents). -/
structure PlainDoc where
  id : Option String
  metadata : Dict
  page_content : String
  doc_type : String
deriving Repr

/-- `document.dict()` for a node, as an association list in field order. -/
def NodeDoc.dict (n : NodeDoc) : Dict :=
  [("id_", .vStr n.id_),
   ("embedding", match n.embedding with
                 | none => .vNone
                 | some v => .vList (v.map .vFloat)),
   ("metadata", .vDict n.metadata),
   ("relationships", .vDict (n.relationships.map (fun kr =>
      (kr.1, .vDict [("node_id", .vStr kr.2.node_id),
                     ("metadata", .vDict kr.2.metadata)])))),
   ("text", .vStr n.text)]

/-- `document.dict()` for a langchain document, in field order; an unset `id`
serializes as `None`. -/
def PlainDoc.dict (p : PlainDoc) : Dict :=
  [("id", match p.id with | none => .vNone | some s => .vStr s),
   ("metadata", .vDict p.metadata),
   ("page_content", .vStr p.page_content),
   ("type", .vStr p.doc_type)]

/-- A runtime element of the `documents` batch: a llama-index node, a
langchain document, or any other object (known only through the dict its
`.dict()` call would yield) — the source dispatches on
`isinstance(documents[0], BaseNode)` alone. -/
inductive InDoc where
  | node (n : NodeDoc) : InDoc
  | plain (p : PlainDoc) : InDoc
  | other (d : Dict) : InDoc
deriving Repr

/-- The `.dict()` serialization of a batch element. -/
def InDoc.dict : InDoc → Dict
  | .node n => n.dict
  | .plain p => p.dict
  | .other d => d

/-- Errors of the conversion paths: `indexError` for `documents[0]` on an
empty batch, `attributeError` for an attribute access/assignment on an object
that lacks it, `keyError` for `d.pop(k)` on a missing key. -/
inductive ConvError where
  | indexError : ConvError
  | attributeError : ConvError
  | keyError (k : String) : ConvError
deriving DecidableEq, Repr

/-- `d.pop(k)`: raises `KeyError` when the key is absent. -/
def dictPopE (d : Dict) (k : String) : Except ConvError Dict :=
  if dictContains d k then .ok (dictRemove d k) else .error (.keyError k)

/-- In-place mutation of one node (src lines 162-171): null the embedding,
pop the `file_path` metadata key when its value is truthy
(`if documents[i].metadata.get("file_path"):`), and empty the metadata of
every relationship entry. -/
def nodeMutate (n : NodeDoc) : NodeDoc :=
  { id_ := n.id_
    embedding := none
    metadata :=
      if pyTruthy ((dictGet n.metadata "file_path").getD .vNone) then
        dictRemove n.metadata "file_path"
      else n.metadata
    relationships := n.relationships.map (fun kr =>
      (kr.1, { node_id := kr.2.node_id, metadata := [] }))
    text := n.text }

/-- The primary-key value of the plain-document branch:
`document_id if document_id is not None else str(uuid.uuid4())`, where
`fresh i` stands for the value of the `uuid.uuid4()` call made in iteration
`i`. -/
def plainPk (fresh : Nat → String) (i : Nat) (d : Dict) : PyVal :=
  match dictGet d "id" with
  | none => .vStr (fresh i)
  | some .vNone => .vStr (fresh i)
  | some v => v

/-- The effect of
`documents[i].update({default_keys[0]: ..., default_keys[3]: documents[i].get("type")})`. -/
def plainUpdated (fresh : Nat → String) (i : Nat) (d : Dict) : Dict :=
  dictSet (dictSet d default_keys[0]! (plainPk fresh i d)) default_keys[3]!
    ((dictGet d "type").getD .vNone)

/-- The body of the plain-document loop (src lines 178-185) for the dict at
position `i`: read `"id"` (a fresh uuid4 replaces a missing/None value), then
`update` with the primary-key and discriminator fields, then pop `"id"` and
`"type"`. -/
def plainConvertOne (fresh : Nat → String) (i : Nat) (d : Dict) :
    Except ConvError Dict :=
  match dictPopE (plainUpdated fresh i d) "id" with
  | .error e => .error e
  | .ok d2 => dictPopE d2 "type"

/-- The indexed `for i in range(len(documents))` loop of the plain branch,
starting from index `i`. -/
def plainLoop (fresh : Nat → String) (i : Nat) :
    List Dict → Except ConvError (List Dict)
  | [] => .ok []
  | d :: rest =>
    match plainConvertOne fresh i d with
    | .error e => .error e
    | .ok r =>
      match plainLoop fresh (i + 1) rest with
      | .error e => .error e
      | .ok rs => .ok (r :: rs)

/-- The batch as seen by the node branch, which treats every element as a
node: a non-node element makes the branch's attribute assignments fail. -/
def extractNodes : List InDoc → Option (List NodeDoc)
  | [] => some []
  | .node n :: rest =>
    match extractNodes rest with
    | none => none
    | some t => some (n :: t)
  | _ :: _ => none

/-- `_convert_upsert_data` (src lines 152-186).  The first component of the
result is the post-call state of the caller-supplied batch: the node branch
mutates the caller's objects in place, the plain branch rebinds a local name
and leaves the caller's objects untouched.  An empty batch fails on
`documents[0]`; a node-headed batch containing a non-node fails when the
node-only attribute assignments are attempted on it. -/
def _convert_upsert_data (fresh : Nat → String) (documents : List InDoc) :
    Except ConvError (List InDoc × List Dict) :=
  match documents with
  | [] => .error .indexError
  | .node _ :: _ =>
    match extractNodes documents with
    | none => .error .attributeError
    | some ns =>
      let ms := ns.map nodeMutate
      .ok (ms.map InDoc.node, ms.map NodeDoc.dict)
  | _ :: _ =>
    match plainLoop fresh 0 (documents.map InDoc.dict) with
    | .error e => .error e
    | .ok recs => .ok (documents, recs)

/-- A storage-engine search result entry, shaped
`{entity: {...fields}, distance: float}`. -/
structure SearchHit where
  entity : Dict
  distance : ℚ
deriving Repr

/-- A llama-index `NodeWithScore`, with the reconstructed node kept as its
field mapping (the dict handed to `TextNode.from_dict`). -/
structure NodeWithScore where
  node : Dict
  score : ℚ
deriving Repr

/-- `_convert_response_to_node_with_score` (src lines 188-212): per response,
copy the entity, null the dense and sparse fields when `remove_embedding`,
and pair the reconstructed node with `responses[i]["distance"]`
positionally. -/
def _convert_response_to_node_with_score (responses : List SearchHit)
    (remove_embedding : Bool) : List NodeWithScore :=
  responses.map (fun r =>
    let temp := r.entity
    let temp :=
      if remove_embedding then
        dictSet (dictSet temp default_keys[1]! .vNone) default_keys[2]! .vNone
      else temp
    { node := temp, score := r.distance })

/-- The per-response body of `_convert_response_to_document`
(src lines 225-234): null the vector fields when asked, then
`entity.setdefault("metadata", {}).setdefault("score", distance)` — a
pre-existing `score` key is kept, and a non-dict stored `metadata` value makes
the second `setdefault` fail with an attribute error. -/
def docHitConvert (r : SearchHit) (remove_embedding : Bool) :
    Except ConvError Dict :=
  let entity := r.entity
  let entity :=
    if remove_embedding then
      dictSet (dictSet entity default_keys[1]! .vNone) default_keys[2]! .vNone
    else entity
  match dictGet entity "metadata" with
  | none =>
    .ok (dictSet entity "metadata" (.vDict [("score", .vFloat r.distance)]))
  | some (.vDict m) =>
    let m2 := if dictContains m "score" then m
              else m ++ [("score", .vFloat r.distance)]
    .ok (dictSet entity "metadata" (.vDict m2))
  | some _ => .error .attributeError

/-- `_convert_response_to_document` (src lines 214-236): the per-response
conversions in input order, aborting on the first failure. -/
def _convert_response_to_document (responses : List SearchHit)
    (remove_embedding : Bool) : Except ConvError (List Dict) :=
  match responses with
  | [] => .ok []
  | r :: rest =>
    match docHitConvert r remove_embedding with
    | .error e => .error e
    | .ok d =>
      match _convert_response_to_document rest remove_embedding with
      | .error e => .error e
      | .ok ds => .ok (d :: ds)

/-- A llama-index `BaseEmbedding` model: mutable batching attributes plus its
batch-embedding entry point (`get_text_embedding_batch`). -/
structure BaseEmbeddingModel where
  num_workers : Int
  embed_batch_size : Int
  embed_fn : List String → List (List ℚ)

/-- A langchain `Embeddings` model: its `embed_documents` entry point. -/
structure LangchainModel where
  embed_documents : List String → List (List ℚ)

/-- A runtime dense-embedding backend: one of the two recognized conventions,
or any other object (which exposes neither). -/
inductive DenseBackend where
  | llama (m : BaseEmbeddingModel) : DenseBackend
  | langchain (m : LangchainModel) : DenseBackend
  | unrecognized (tag : String) : DenseBackend

/-- Failures of the embedding paths: `attributeError` for calling a method the
object does not have; `notImplemented` for the explicit
`NotImplementedError(...)` raises (the spec's `UnsupportedBackend`), which
only the sparse embedding functions contain. -/
inductive EmbedError where
  | attributeError (method : String) : EmbedError
  | notImplemented (msg : String) : EmbedError
deriving DecidableEq, Repr

/-- `_embed_texts` (src lines 53-78).  A `BaseEmbedding` model has its
`num_workers`/`embed_batch_size` attributes mutated before the batch call (the
returned backend is the post-call model object); every other object reaches
the unconditional `embedding_model.embed_documents(texts=texts)` call, so an
object outside both conventions fails with Python's attribute lookup error —
this function has no `NotImplementedError` arm, unlike the sparse variants. -/
def _embed_texts (texts : List String) (embedding_model : DenseBackend)
    (batch_size : Int) (num_workers : Int) (show_progress : Bool) :
    Except EmbedError (List (List ℚ) × DenseBackend) :=
  match embedding_model with
  | .llama m =>
    let m2 : BaseEmbeddingModel :=
      { num_workers := num_workers,
        embed_batch_size := batch_size,
        embed_fn := m.embed_fn }
    .ok (m2.embed_fn texts, .llama m2)
  | .langchain m => .ok (m.embed_documents texts, .langchain m)
  | .unrecognized _ =>
    let _ := show_progress
    .error (.attributeError "embed_documents")

/-- A fastembed `SparseTextEmbedding` backend or a milvus-model Splade
backend, or anything else; kept only as far as `_sparse_embed_texts`
dispatches on it. -/
inductive SparseBackend where
  | fastembed (embed : List String → List (List (Nat × ℚ))) : SparseBackend
  | splade (encode_documents : List String → List (List (Nat × ℚ))) : SparseBackend
  | unrecognized (tag : String) : SparseBackend

/-- `_sparse_embed_texts` (src lines 98-123), for contrast with the dense
path: after the two `isinstance` checks fail it raises
`NotImplementedError` — the explicit unsupported-backend arm. -/
def _sparse_embed_texts (texts : List String)
    (sparse_embedding_model : SparseBackend) :
    Except EmbedError (List (List (Nat × ℚ))) :=
  match sparse_embedding_model with
  | .fastembed embed => .ok (embed texts)
  | .splade encode_documents => .ok (encode_documents texts)
  | .unrecognized _ =>
    .error (.notImplemented "This version only support FastEmbed SparseTextEmbedding!")

/-- Does an embedding result fail with the explicit unsupported-backend
(`NotImplementedError`) raise? -/
def failsUnsupported (r : Except EmbedError (List (List ℚ) × DenseBackend)) :
    Bool :=
  match r with
  | .error (.notImplemented _) => true
  | _ => false

/-- The `AssertionError` of `_create_partition`'s empty-name guard. -/
inductive PartitionError where
  | invalidArgument (msg : String) : PartitionError
deriving DecidableEq, Repr

/-- A storage-engine call issued by `_create_partition`, in order. -/
inductive EngineCall where
  | createPartitionCall (collection partition : String) : EngineCall
  | getLoadStateCall (collection : String) : EngineCall
deriving DecidableEq, Repr

/-- `_create_partition` (src lines 449-462): assert the name is truthy (a
non-empty string) before any engine call, then issue the create-partition call
and return the collection-level load state (`load_state` is the engine's
`get_load_state` oracle). -/
def _create_partition (collection_name : String)
    (load_state : String → PyVal) (partition_name : String) :
    Except PartitionError (List EngineCall × PyVal) :=
  if partition_name = "" then
    .error (.invalidArgument "Collection name must be a string")
  else
    .ok ([.createPartitionCall collection_name partition_name,
          .getLoadStateCall collection_name],
         load_state collection_name)

/-- One entry of the `fields` list of a collection description: the source
reads its `name` and `params` keys with `.get`. -/
structure FieldDescription where
  name : Option String
  params : Option Dict
deriving Repr

/-- A collection description as returned by `describe_collection`: the source
reads its `fields` key with `.get`. -/
structure CollectionDescription where
  fields : Option (List FieldDescription)
deriving Repr

/-- The failures of `_verify_collection_dimension`: the four schema-shape
`ValueError`s (the spec's `SchemaInconsistency`, identified by message) and
the final dimension-comparison `ValueError` (the spec's `DimensionMismatch`,
carrying the runtime and declared dimensions of its message). -/
inductive VerifyError where
  | schemaInconsistency (msg : String) : VerifyError
  | dimensionMismatch (embedding_dimension collection_dims : Int) : VerifyError
deriving DecidableEq, Repr

/-- `_verify_collection_dimension` (src lines 519-554): find the field
description named after the dense-vector field, drill into its `params`/`dim`,
require an `int`, and compare with the runtime embedding dimension. -/
def _verify_collection_dimension (stats : CollectionDescription)
    (embedding_dimension : Int) : Except VerifyError Unit :=
  match stats.fields with
  | none => .error (.schemaInconsistency "Fields not existed in collection")
  | some collection_stats =>
    match collection_stats.filter (fun s => s.name == some default_keys[1]!) with
    | [] => .error (.schemaInconsistency "Empty embedding field!")
    | s :: _ =>
      match s.params with
      | none => .error (.schemaInconsistency "Empty params field!")
      | some collection_params =>
        let dim_val := (dictGet collection_params "dim").getD .vNone
        if pyIsNone dim_val then
          .error (.schemaInconsistency "Empty dim field!")
        else
          match pyIsInt dim_val with
          | none => .error (.schemaInconsistency "Collection dims must be integer!")
          | some collection_dims =>
            if embedding_dimension ≠ collection_dims then
              .error (.dimensionMismatch embedding_dimension collection_dims)
            else .ok ()

/-! ### Dictionary lemmas -/

theorem dictGet_map_set_self (d : Dict) (k : String) (v : PyVal)
    (h : dictContains d k = true) :
    dictGet (d.map (fun kv => if kv.1 == k then (k, v) else kv)) k =
      some v := by
  induction d with
  | nil => simp [dictContains] at h
  | cons a d ih =>
    by_cases ha : a.1 = k
    · simp [dictGet, ha]
    · have h2 : dictContains d k = true := by
        simpa [dictContains, ha] using h
      simpa [dictGet, ha] using ih h2

theorem dictGet_map_set_ne (d : Dict) (k k2 : String) (v : PyVal)
    (h : k2 ≠ k) :
    dictGet (d.map (fun kv => if kv.1 == k then (k, v) else kv)) k2 =
      dictGet d k2 := by
  induction d with
  | nil => simp [dictGet]
  | cons a d ih =>
    by_cases ha : a.1 = k
    · have ha2 : ¬ (a.1 = k2) := by rw [ha]; exact fun hh => h hh.symm
      simpa [dictGet, ha, Ne.symm h, ha2] using ih
    · by_cases ha2 : a.1 = k2
      · simp [dictGet, ha, ha2, h]
      · simpa [dictGet, ha, ha2] using ih

theorem dictGet_append_self (d : Dict) (k : String) (v : PyVal)
    (h : dictContains d k = false) :
    dictGet (d ++ [(k, v)]) k = some v := by
  induction d with
  | nil => simp [dictGet]
  | cons a d ih =>
    have ha : ¬ (a.1 = k) := by
      intro hh
      simp [dictContains, hh] at h
    have h2 : dictContains d k = false := by
      simpa [dictContains, ha] using h
    simpa [dictGet, ha] using ih h2

theorem dictGet_append_ne (d : Dict) (k k2 : String) (v : PyVal)
    (h : k2 ≠ k) :
    dictGet (d ++ [(k, v)]) k2 = dictGet d k2 := by
  induction d with
  | nil => simp [dictGet, Ne.symm h]
  | cons a d ih =>
    by_cases ha2 : a.1 = k2
    · simp [dictGet, ha2]
    · simpa [dictGet, ha2] using ih

theorem dictGet_dictSet_self (d : Dict) (k : String) (v : PyVal) :
    dictGet (dictSet d k v) k = some v := by
  unfold dictSet
  by_cases h : dictContains d k = true
  · simpa [h] using dictGet_map_set_self d k v h
  · have hf : dictContains d k = false := by simpa using h
    simpa [hf] using dictGet_append_self d k v hf

theorem dictGet_dictSet_ne (d : Dict) (k k2 : String) (v : PyVal)
    (h : k2 ≠ k) : dictGet (dictSet d k v) k2 = dictGet d k2 := by
  unfold dictSet
  by_cases hc : dictContains d k = true
  · simpa [hc] using dictGet_map_set_ne d k k2 v h
  · have hf : dictContains d k = false := by simpa using hc
    simpa [hf] using dictGet_append_ne d k k2 v h

theorem dictContains_dictRemove_self (d : Dict) (k : String) :
    dictContains (dictRemove d k) k = false := by
  induction d with
  | nil => simp [dictContains, dictRemove]
  | cons a d ih =>
    simp only [dictRemove, dictContains] at ih ⊢
    by_cases ha : a.1 = k
    · simp [List.filter_cons, ha, ih]
    · simp [List.filter_cons, ha, ih]

theorem dictContains_map_set (d : Dict) (k : String) (v : PyVal) (k2 : String) :
    dictContains (d.map (fun kv => if kv.1 == k then (k, v) else kv)) k2 =
      dictContains d k2 := by
  induction d with
  | nil => rfl
  | cons a d ih =>
    by_cases ha : a.1 = k
    · simp only [dictContains, List.map_cons, List.any_cons] at ih ⊢
      rw [ih, if_pos (by simpa using ha)]
      simp [ha]
    · simp only [dictContains, List.map_cons, List.any_cons] at ih ⊢
      rw [if_neg (by simpa using ha), ih]

theorem dictContains_dictSet_of (d : Dict) (k : String) (v : PyVal)
    (k2 : String) (h : dictContains d k2 = true) :
    dictContains (dictSet d k v) k2 = true := by
  unfold dictSet
  by_cases hc : dictContains d k = true
  · rw [if_pos hc, dictContains_map_set]
    exact h
  · rw [if_neg hc]
    simp only [dictContains, List.any_append]
    simp only [dictContains] at h
    simp [h]

theorem dictContains_dictRemove_ne (d : Dict) (k k2 : String) (h : k2 ≠ k) :
    dictContains (dictRemove d k) k2 = dictContains d k2 := by
  induction d with
  | nil => rfl
  | cons a d ih =>
    simp only [dictRemove, dictContains, List.filter_cons] at ih ⊢
    by_cases ha : a.1 = k
    · have hpa : ¬ ((a.1 != k) = true) := by simp [ha]
      have ha2 : (a.1 == k2) = false := by
        rw [ha]
        simp [Ne.symm h]
      rw [if_neg hpa, List.any_cons, ha2, ih]
      simp
    · have hpa : (a.1 != k) = true := by simp [ha]
      rw [if_pos hpa, List.any_cons, List.any_cons, ih]

/-- A dict that contains `"id"` and `"type"` passes the plain-branch loop
body without a key error. -/
theorem plainConvertOne_ok (fresh : Nat → String) (i : Nat) (d : Dict)
    (hid : dictContains d "id" = true)
    (htype : dictContains d "type" = true) :
    ∃ r, plainConvertOne fresh i d = .ok r := by
  have c1 : dictContains (plainUpdated fresh i d) "id" = true := by
    unfold plainUpdated
    exact dictContains_dictSet_of _ _ _ _ (dictContains_dictSet_of _ _ _ _ hid)
  have c2 : dictContains (dictRemove (plainUpdated fresh i d) "id") "type" = true := by
    rw [dictContains_dictRemove_ne _ _ _ (by decide)]
    unfold plainUpdated
    exact dictContains_dictSet_of _ _ _ _ (dictContains_dictSet_of _ _ _ _ htype)
  unfold plainConvertOne dictPopE
  rw [if_pos c1]
  simp only
  rw [if_pos c2]
  exact ⟨_, rfl⟩

theorem dictGet_some_of_contains (d : Dict) (k : String)
    (h : dictContains d k = true) : ∃ v, dictGet d k = some v := by
  induction d with
  | nil => simp [dictContains] at h
  | cons a d ih =>
    by_cases ha : a.1 = k
    · exact ⟨a.2, by simp [dictGet, ha]⟩
    · have h2 : dictContains d k = true := by
        simpa [dictContains, ha] using h
      simpa [dictGet, ha] using ih h2

theorem dictGet_none_of_not_contains (d : Dict) (k : String)
    (h : dictContains d k = false) : dictGet d k = none := by
  induction d with
  | nil => rfl
  | cons a d ih =>
    have ha : ¬ (a.1 = k) := by
      intro hh
      simp [dictContains, hh] at h
    have h2 : dictContains d k = false := by
      simpa [dictContains, ha] using h
    simpa [dictGet, ha] using ih h2

/-! ### C3: the sparse index always uses the inner-product metric -/

/-- C3: for every requested index algorithm, dense metric and tuning
parameters, the plan produced with sparse enabled contains an index entry for
the sparse-vector field, and every entry of the plan for that field carries
the inner-product metric `"IP"`, independently of the requested dense
metric. -/
theorem C3_sparse_metric_is_inner_product (index_algo dense_search_metric : String)
    (params : Option Dict) (sparse_index_type : String)
    (sparse_params : Option Dict) :
    (∃ e ∈ _setup_collection_index index_algo dense_search_metric params true
        sparse_index_type sparse_params,
        e.field_name = default_keys[2]! ∧ e.metric_type = some "IP") ∧
    (∀ e ∈ _setup_collection_index index_algo dense_search_metric params true
        sparse_index_type sparse_params,
        e.field_name = default_keys[2]! → e.metric_type = some "IP") := by
  constructor
  · refine ⟨⟨default_keys[2]!, "sparse_representation", some sparse_index_type,
      some "IP", some (sparse_params.getD [("drop_ratio_build", .vFloat (2/10))])⟩,
      ?_, rfl, rfl⟩
    simp [_setup_collection_index]
  · intro e he hfield
    simp only [_setup_collection_index, if_true, List.mem_append,
      List.mem_cons, List.not_mem_nil, or_false] at he
    rcases he with (he | he) | he
    · subst he; simp [default_keys] at hfield
    · subst he; simp [default_keys] at hfield
    · subst he; rfl

/-! ### C9: create_partition validates the partition name first -/

/-- C9: `_create_partition` fails with the invalid-argument assertion exactly
when the supplied partition name is empty — in which case no storage-engine
call is issued — and for a non-empty name it issues the create-partition call
followed by the load-state query and returns the collection's load state
without raising on its own account. -/
theorem C9_create_partition_requires_name (collection_name : String)
    (load_state : String → PyVal) (partition_name : String) :
    (partition_name = "" →
      _create_partition collection_name load_state partition_name =
        .error (.invalidArgument "Collection name must be a string")) ∧
    (partition_name ≠ "" →
      _create_partition collection_name load_state partition_name =
        .ok ([.createPartitionCall collection_name partition_name,
              .getLoadStateCall collection_name],
             load_state collection_name)) := by
  constructor
  · intro h; simp [_create_partition, h]
  · intro h; simp [_create_partition, h]

/-- Witness for C9 at the spec's own examples: an empty name raises, and
`"docs_2024"` returns a load-state result. -/
theorem C9_witness :
    _create_partition "milvus_vector_store" (fun _ => .vStr "Loaded") "" =
      .error (.invalidArgument "Collection name must be a string") ∧
    _create_partition "milvus_vector_store" (fun _ => .vStr "Loaded") "docs_2024" =
      .ok ([.createPartitionCall "milvus_vector_store" "docs_2024",
            .getLoadStateCall "milvus_vector_store"], .vStr "Loaded") := by
  constructor
  · exact (C9_create_partition_requires_name "milvus_vector_store"
      (fun _ => .vStr "Loaded") "").1 rfl
  · exact (C9_create_partition_requires_name "milvus_vector_store"
      (fun _ => .vStr "Loaded") "docs_2024").2 (by decide)

/-! ### C2: primary key first, dense vector second, sparse iff enabled -/

/-- C2: for every document shape string, every dimensionality, every
recognized vector datatype and both sparse flags, the synthesized schema has
the string primary-key field (primary flag set, varchar) as its first field
and the dense-vector field (with the requested datatype and dimension) as its
second field, and it contains a field named after the sparse-vector field if
and only if sparse is enabled. -/
theorem C2_schema_field_order (document_type : String) (vector_dims : Nat)
    (dense_datatype : String) (enable_sparse : Bool)
    (h : dense_datatype ∈
      (["FLOAT_VECTOR", "FLOAT16_VECTOR", "BFLOAT16_VECTOR"] : List String)) :
    ∃ ddt schema,
      _get_datatype dense_datatype = .ok ddt ∧
      _setup_collection_schema document_type vector_dims dense_datatype
        enable_sparse = .ok schema ∧
      schema[0]? =
        some ⟨default_keys[0]!, .VARCHAR, true, some 64, none, none, none, false⟩ ∧
      schema[1]? =
        some ⟨default_keys[1]!, ddt, false, none, some vector_dims, none, none, false⟩ ∧
      schema.any (fun f => f.field_name == default_keys[2]!) = enable_sparse := by
  obtain ⟨ddt, hdt⟩ : ∃ ddt, _get_datatype dense_datatype = .ok ddt := by
    simp only [List.mem_cons, List.not_mem_nil, or_false] at h
    rcases h with h | h | h <;> subst h <;> exact ⟨_, rfl⟩
  refine ⟨ddt, ?_⟩
  unfold _setup_collection_schema
  rw [hdt]
  refine ⟨_, rfl, rfl, ?_, ?_, ?_⟩ <;>
    (cases enable_sparse <;>
      by_cases hN : strEndsWith document_type "Node" = true <;>
      by_cases hD : (document_type == "Document") = true <;>
      simp [hN, hD, default_keys, nodeShapeFields, documentShapeFields,
        base_node_fields, document_fields])

/-- Witness for C2 at the node shape with a 4-dimensional standard-float
vector and sparse enabled. -/
theorem C2_witness :
    ∃ ddt schema,
      _get_datatype "FLOAT_VECTOR" = .ok ddt ∧
      _setup_collection_schema "TextNode" 4 "FLOAT_VECTOR" true = .ok schema ∧
      schema[0]? =
        some ⟨default_keys[0]!, .VARCHAR, true, some 64, none, none, none, false⟩ ∧
      schema[1]? =
        some ⟨default_keys[1]!, ddt, false, none, some 4, none, none, false⟩ ∧
      schema.any (fun f => f.field_name == default_keys[2]!) = true :=
  C2_schema_field_order "TextNode" 4 "FLOAT_VECTOR" true (by decide)

/-! ### C6: unrecognized vector datatypes are rejected -/

/-- C6: for every document shape, dimensionality and sparse flag, the schema
synthesis fails with the invalid-datatype error — returning no schema at all —
exactly when the requested vector datatype is outside the three recognized
floating-point encodings, and succeeds with a schema for each of the three. -/
theorem C6_invalid_datatype_rejected (document_type : String)
    (vector_dims : Nat) (enable_sparse : Bool) (dense_datatype : String) :
    (dense_datatype ∉
        (["FLOAT_VECTOR", "FLOAT16_VECTOR", "BFLOAT16_VECTOR"] : List String) →
      _setup_collection_schema document_type vector_dims dense_datatype
        enable_sparse = .error (.invalidDatatype dense_datatype)) ∧
    (dense_datatype ∈
        (["FLOAT_VECTOR", "FLOAT16_VECTOR", "BFLOAT16_VECTOR"] : List String) →
      ∃ schema, _setup_collection_schema document_type vector_dims dense_datatype
        enable_sparse = .ok schema) := by
  constructor
  · intro h
    simp only [List.mem_cons, List.mem_singleton, not_or] at h
    obtain ⟨h1, h2, h3⟩ := h
    simp [_setup_collection_schema, _get_datatype, h1, h2, h3]
  · intro h
    simp only [List.mem_cons, List.not_mem_nil, or_false] at h
    rcases h with h | h | h <;> subst h <;> exact ⟨_, rfl⟩

/-- Witness for C6: `"INT8_VECTOR"` is rejected with the invalid-datatype
error, while `"FLOAT_VECTOR"` yields a schema. -/
theorem C6_witness :
    _setup_collection_schema "Document" 4 "INT8_VECTOR" false =
      .error (.invalidDatatype "INT8_VECTOR") ∧
    ∃ schema, _setup_collection_schema "Document" 4 "FLOAT_VECTOR" false =
      .ok schema := by
  constructor
  · exact (C6_invalid_datatype_rejected "Document" 4 false "INT8_VECTOR").1
      (by decide)
  · exact (C6_invalid_datatype_rejected "Document" 4 false "FLOAT_VECTOR").2
      (by decide)

/-! ### C1: dimension verification -/

/-- C1: given the described collection metadata, the verification fails with
the dimension-mismatch error exactly when the declared dense-vector dimension
(an integer) differs from the runtime embedding dimension, returns normally
exactly when they are equal, and fails with a schema-inconsistency error in
each malformed case: no `fields` list, no field description named after the
dense-vector field, no `params` block on the first such description, a
missing/None `dim` entry, and a non-integer `dim` value. -/
theorem C1_verify_dimension (stats : CollectionDescription)
    (embedding_dimension : Int) :
    (stats.fields = none →
      _verify_collection_dimension stats embedding_dimension =
        .error (.schemaInconsistency "Fields not existed in collection")) ∧
    (∀ fs, stats.fields = some fs →
      (fs.filter (fun s => s.name == some default_keys[1]!) = [] →
        _verify_collection_dimension stats embedding_dimension =
          .error (.schemaInconsistency "Empty embedding field!")) ∧
      (∀ f rest, fs.filter (fun s => s.name == some default_keys[1]!) = f :: rest →
        (f.params = none →
          _verify_collection_dimension stats embedding_dimension =
            .error (.schemaInconsistency "Empty params field!")) ∧
        (∀ ps, f.params = some ps →
          (pyIsNone ((dictGet ps "dim").getD .vNone) = true →
            _verify_collection_dimension stats embedding_dimension =
              .error (.schemaInconsistency "Empty dim field!")) ∧
          (pyIsNone ((dictGet ps "dim").getD .vNone) = false →
            pyIsInt ((dictGet ps "dim").getD .vNone) = none →
            _verify_collection_dimension stats embedding_dimension =
              .error (.schemaInconsistency "Collection dims must be integer!")) ∧
          (∀ d, pyIsInt ((dictGet ps "dim").getD .vNone) = some d →
            ((_verify_collection_dimension stats embedding_dimension = .ok ()) ↔
              embedding_dimension = d) ∧
            ((_verify_collection_dimension stats embedding_dimension =
                .error (.dimensionMismatch embedding_dimension d)) ↔
              embedding_dimension ≠ d))))) := by
  constructor
  · intro h
    simp [_verify_collection_dimension, h]
  · intro fs hfs
    constructor
    · intro hfilter
      simp [_verify_collection_dimension, hfs, hfilter]
    · intro f rest hfilter
      constructor
      · intro hp
        simp [_verify_collection_dimension, hfs, hfilter, hp]
      · intro ps hps
        refine ⟨?_, ?_, ?_⟩
        · intro hnone
          simp [_verify_collection_dimension, hfs, hfilter, hps, hnone]
        · intro hnotnone hnoint
          simp [_verify_collection_dimension, hfs, hfilter, hps, hnotnone, hnoint]
        · intro d hint
          have hnotnone : pyIsNone ((dictGet ps "dim").getD .vNone) = false := by
            cases hv : (dictGet ps "dim").getD .vNone <;>
              simp_all [pyIsNone, pyIsInt]
          by_cases hed : embedding_dimension = d
          · simp [_verify_collection_dimension, hfs, hfilter, hps, hnotnone,
              hint, hed]
          · simp [_verify_collection_dimension, hfs, hfilter, hps, hnotnone,
              hint, hed]

/-- Witness for C1 at the spec's own example: a collection declared with
dimension 512 raises the dimension mismatch against a runtime dimension of
768 and verifies cleanly against 512. -/
theorem C1_witness :
    _verify_collection_dimension
      ⟨some [⟨some "embedding", some [("dim", .vInt 512)]⟩]⟩ 768 =
      .error (.dimensionMismatch 768 512) ∧
    _verify_collection_dimension
      ⟨some [⟨some "embedding", some [("dim", .vInt 512)]⟩]⟩ 512 = .ok () := by
  constructor
  · exact ((((C1_verify_dimension
      ⟨some [⟨some "embedding", some [("dim", .vInt 512)]⟩]⟩ 768).2
      [⟨some "embedding", some [("dim", .vInt 512)]⟩] rfl).2
      ⟨some "embedding", some [("dim", .vInt 512)]⟩ [] rfl).2
      [("dim", .vInt 512)] rfl).2.2 512 rfl |>.2.mpr (by decide)
  · exact ((((C1_verify_dimension
      ⟨some [⟨some "embedding", some [("dim", .vInt 512)]⟩]⟩ 512).2
      [⟨some "embedding", some [("dim", .vInt 512)]⟩] rfl).2
      ⟨some "embedding", some [("dim", .vInt 512)]⟩ [] rfl).2
      [("dim", .vInt 512)] rfl).2.2 512 rfl |>.1.mpr rfl

/-! ### C8: dense embedding dispatch has no unsupported-backend arm -/

/-- C8 counterexample: for a backend matching neither recognized dense
convention, `_embed_texts` does not fail with the unsupported-backend
(`NotImplementedError`) raise the claim describes — it invokes the object
under the assumed langchain convention and fails with the attribute lookup
error of that call.  (The sparse path, by contrast, does raise the
unsupported-backend error.) -/
theorem C8_counterexample :
    _embed_texts ["some text"] (.unrecognized "neither convention") 32 4 true =
      .error (.attributeError "embed_documents") ∧
    failsUnsupported
      (_embed_texts ["some text"] (.unrecognized "neither convention") 32 4 true) =
      false ∧
    _sparse_embed_texts ["some text"] (.unrecognized "neither convention") =
      .error (.notImplemented
        "This version only support FastEmbed SparseTextEmbedding!") := by
  exact ⟨rfl, rfl, rfl⟩

/-- C8 amended: `_embed_texts` recognizes only the `BaseEmbedding` convention
explicitly (mutating the model's batching attributes before the batch call)
and otherwise unconditionally invokes the object under the langchain
`embed_documents` convention; an embedding model matching neither convention
therefore fails with the attribute error of that invocation — never with the
unsupported-backend error, which only the sparse embedding functions raise. -/
theorem C8_amended_embed_dispatch (texts : List String)
    (batch_size num_workers : Int) (show_progress : Bool) :
    (∀ m : BaseEmbeddingModel,
      _embed_texts texts (.llama m) batch_size num_workers show_progress =
        .ok (m.embed_fn texts,
             .llama ⟨num_workers, batch_size, m.embed_fn⟩)) ∧
    (∀ m : LangchainModel,
      _embed_texts texts (.langchain m) batch_size num_workers show_progress =
        .ok (m.embed_documents texts, .langchain m)) ∧
    (∀ tag, _embed_texts texts (.unrecognized tag) batch_size num_workers
        show_progress = .error (.attributeError "embed_documents") ∧
      failsUnsupported (_embed_texts texts (.unrecognized tag) batch_size
        num_workers show_progress) = false) :=
  ⟨fun _ => rfl, fun _ => rfl, fun _ => ⟨rfl, rfl⟩⟩

/-! ### C7: unrecognized document shapes are not rejected -/

/-- C7 counterexample: for the unrecognized document shape `"ChunkRecord"`
(neither a `...Node` name nor `"Document"`), schema synthesis raises nothing
and returns a schema with no shape-specific fields at all, and record
conversion raises nothing and silently processes the batch under the
plain-document branch — there is no unsupported-document-shape failure in
either path. -/
theorem C7_counterexample :
    _setup_collection_schema "ChunkRecord" 4 "FLOAT_VECTOR" false =
      .ok [⟨"id_", .VARCHAR, true, some 64, none, none, none, false⟩,
           ⟨"embedding", .FLOAT_VECTOR, false, none, some 4, none, none, false⟩,
           ⟨"payload_type", .VARCHAR, false, some 16, none, none, none, false⟩] ∧
    _convert_upsert_data (fun _ => "generated-uuid")
      [.other [("id", .vStr "x7"), ("type", .vStr "ChunkRecord")]] =
      .ok ([.other [("id", .vStr "x7"), ("type", .vStr "ChunkRecord")]],
           [[("id_", .vStr "x7"), ("payload_type", .vStr "ChunkRecord")]]) :=
  ⟨rfl, rfl⟩

/-- C7 amended: the conversion and schema-synthesis operations never fail
with an unsupported-document-shape error.  Schema synthesis for a
`document_type` that neither ends in `"Node"` nor equals `"Document"` returns
the base schema — every field is one of the four default fields, with no
shape-specific fields — and raises nothing; record conversion dispatches only
on whether the first document is a node, so a batch of any other shape is
silently processed under the plain-document branch, succeeding whenever the
serialized document carries `"id"` and `"type"` keys. -/
theorem C7_amended_no_shape_rejection (document_type : String)
    (vector_dims : Nat) (enable_sparse : Bool) (fresh : Nat → String)
    (d : Dict)
    (h1 : strEndsWith document_type "Node" = false)
    (h2 : (document_type == "Document") = false)
    (hid : dictContains d "id" = true)
    (htype : dictContains d "type" = true) :
    (∃ schema,
      _setup_collection_schema document_type vector_dims "FLOAT_VECTOR"
        enable_sparse = .ok schema ∧
      ∀ f ∈ schema, f.field_name ∈ default_keys) ∧
    (∃ recs, _convert_upsert_data fresh [.other d] = .ok ([.other d], recs)) := by
  constructor
  · have hs : ∃ schema,
        _setup_collection_schema document_type vector_dims "FLOAT_VECTOR"
          enable_sparse = .ok schema ∧
        schema =
          ([⟨default_keys[0]!, .VARCHAR, true, some 64, none, none, none, false⟩,
            ⟨default_keys[1]!, .FLOAT_VECTOR, false, none, some vector_dims,
              none, none, false⟩] ++
           (if enable_sparse then
             [⟨default_keys[2]!, .SPARSE_FLOAT_VECTOR, false, none, none,
               none, none, false⟩]
            else []) ++
           [⟨default_keys[3]!, .VARCHAR, false, some 16, none, none, none,
             false⟩]) := by
      refine ⟨_, ?_, rfl⟩
      unfold _setup_collection_schema
      rw [show _get_datatype "FLOAT_VECTOR" = .ok .FLOAT_VECTOR from rfl]
      simp [h1, h2]
    obtain ⟨schema, hse, hschema⟩ := hs
    refine ⟨schema, hse, ?_⟩
    subst hschema
    cases enable_sparse with
    | false =>
      intro f hf
      simp only [List.append_nil, List.cons_append, List.nil_append,
        List.mem_cons, List.not_mem_nil, or_false, if_true, if_false,
        Bool.false_eq_true] at hf
      rcases hf with hf | hf | hf <;> subst hf <;> simp [default_keys]
    | true =>
      intro f hf
      simp only [List.append_nil, List.cons_append, List.nil_append,
        List.mem_cons, List.not_mem_nil, or_false, if_true, if_false,
        Bool.false_eq_true] at hf
      rcases hf with hf | hf | hf | hf <;> subst hf <;> simp [default_keys]
  · obtain ⟨r, hr⟩ := plainConvertOne_ok fresh 0 d hid htype
    refine ⟨[r], ?_⟩
    unfold _convert_upsert_data
    simp only [List.map_cons, List.map_nil, InDoc.dict]
    unfold plainLoop
    rw [hr]
    rfl

/-- Witness for C7 amended, at the shape name `"ChunkRecord"` and a document
whose serialization has `"id"` and `"type"` keys. -/
theorem C7_amended_witness :
    (∃ schema,
      _setup_collection_schema "ChunkRecord" 4 "FLOAT_VECTOR" true =
        .ok schema ∧ ∀ f ∈ schema, f.field_name ∈ default_keys) ∧
    (∃ recs, _convert_upsert_data (fun _ => "generated-uuid")
      [.other [("id", .vNone), ("type", .vStr "ChunkRecord")]] =
      .ok ([.other [("id", .vNone), ("type", .vStr "ChunkRecord")]], recs)) :=
  C7_amended_no_shape_rejection "ChunkRecord" 4 true (fun _ => "generated-uuid")
    [("id", .vNone), ("type", .vStr "ChunkRecord")] rfl rfl rfl rfl

/-! ### C4: plain-document identifiers -/

/-- The record produced by the plain branch for the serialized document `p` at
position `i`: `id`/`type` renamed to the primary-key and discriminator
fields, the primary key defaulting to the fresh identifier drawn in iteration
`i`. -/
def plainRecordModel (fresh : Nat → String) (i : Nat) (p : PlainDoc) : Dict :=
  [("metadata", .vDict p.metadata),
   ("page_content", .vStr p.page_content),
   (default_keys[0]!, .vStr (p.id.getD (fresh i))),
   (default_keys[3]!, .vStr p.doc_type)]

/-- The records of the plain-branch loop started at position `i`. -/
def plainRecsFrom (fresh : Nat → String) : Nat → List PlainDoc → List Dict
  | _, [] => []
  | i, p :: rest => plainRecordModel fresh i p :: plainRecsFrom fresh (i + 1) rest

theorem plainConvertOne_plainDict (fresh : Nat → String) (i : Nat)
    (p : PlainDoc) :
    plainConvertOne fresh i p.dict = .ok (plainRecordModel fresh i p) := by
  obtain ⟨pid, pmd, ppc, pdt⟩ := p
  cases pid <;> rfl

theorem plainLoop_plainDicts (fresh : Nat → String) (docs : List PlainDoc) :
    ∀ i, plainLoop fresh i (docs.map PlainDoc.dict) =
      .ok (plainRecsFrom fresh i docs) := by
  induction docs with
  | nil => intro i; rfl
  | cons p rest ih =>
    intro i
    simp only [List.map_cons, plainLoop, plainConvertOne_plainDict, ih,
      plainRecsFrom]

theorem plainRecsFrom_getElem? (fresh : Nat → String) (docs : List PlainDoc) :
    ∀ i j, (plainRecsFrom fresh i docs)[j]? =
      (docs[j]?).map (plainRecordModel fresh (i + j)) := by
  induction docs with
  | nil => intro i j; simp [plainRecsFrom]
  | cons p rest ih =>
    intro i j
    cases j with
    | zero => simp [plainRecsFrom]
    | succ j =>
      have := ih (i + 1) j
      simp only [plainRecsFrom, List.getElem?_cons_succ]
      rw [this]
      have harith : i + 1 + j = i + (j + 1) := by omega
      rw [harith]

theorem plainRecordModel_pk (fresh : Nat → String) (i : Nat) (p : PlainDoc) :
    dictGet (plainRecordModel fresh i p) default_keys[0]! =
      some (.vStr (p.id.getD (fresh i))) := rfl

theorem plainRecordModel_no_id (fresh : Nat → String) (i : Nat) (p : PlainDoc) :
    dictGet (plainRecordModel fresh i p) "id" = none := rfl

theorem plainRecordModel_type (fresh : Nat → String) (i : Nat) (p : PlainDoc) :
    dictGet (plainRecordModel fresh i p) default_keys[3]! =
      some (.vStr p.doc_type) := rfl

theorem plainRecordModel_no_type (fresh : Nat → String) (i : Nat) (p : PlainDoc) :
    dictGet (plainRecordModel fresh i p) "type" = none := rfl

/-- C4: converting a non-empty batch of plain documents leaves the caller's
documents untouched and yields one record per document in order; a document
with an explicit identifier keeps it unchanged in the primary-key field, a
document without one receives the fresh identifier drawn at its position
(distinct from every other freshly drawn identifier in the batch, as uuid4
draws are); in both cases the generic `"id"` and `"type"` keys are renamed to
the primary-key and document-type discriminator fields. -/
theorem C4_plain_identifiers (fresh : Nat → String) (docs : List PlainDoc)
    (hne : docs ≠ [])
    (hfresh : ∀ i j, i < docs.length → j < docs.length → i ≠ j →
      fresh i ≠ fresh j) :
    _convert_upsert_data fresh (docs.map InDoc.plain) =
      .ok (docs.map InDoc.plain, plainRecsFrom fresh 0 docs) ∧
    (∀ i p, docs[i]? = some p →
      (plainRecsFrom fresh 0 docs)[i]? = some (plainRecordModel fresh i p) ∧
      dictGet (plainRecordModel fresh i p) default_keys[0]! =
        some (.vStr (p.id.getD (fresh i))) ∧
      dictGet (plainRecordModel fresh i p) "id" = none ∧
      dictGet (plainRecordModel fresh i p) default_keys[3]! =
        some (.vStr p.doc_type) ∧
      dictGet (plainRecordModel fresh i p) "type" = none) ∧
    (∀ i j p q, docs[i]? = some p → docs[j]? = some q → i ≠ j →
      p.id = none → q.id = none →
      dictGet (plainRecordModel fresh i p) default_keys[0]! ≠
        dictGet (plainRecordModel fresh j q) default_keys[0]!) := by
  refine ⟨?_, ?_, ?_⟩
  · cases docs with
    | nil => exact absurd rfl hne
    | cons p rest =>
      have hmm : (InDoc.plain p :: rest.map InDoc.plain).map InDoc.dict =
          (p :: rest).map PlainDoc.dict := by
        simp only [List.map_cons, List.map_map, InDoc.dict]
        rfl
      have hstep : _convert_upsert_data fresh
          (InDoc.plain p :: rest.map InDoc.plain) =
          match plainLoop fresh 0
            ((InDoc.plain p :: rest.map InDoc.plain).map InDoc.dict) with
          | .error e => .error e
          | .ok recs => .ok (InDoc.plain p :: rest.map InDoc.plain, recs) := rfl
      simp only [List.map_cons]
      rw [hstep, hmm, plainLoop_plainDicts]
  · intro i p hp
    have h0 : (plainRecsFrom fresh 0 docs)[i]? =
        some (plainRecordModel fresh i p) := by
      rw [plainRecsFrom_getElem?, hp]
      simp
    exact ⟨h0, plainRecordModel_pk fresh i p, plainRecordModel_no_id fresh i p,
      plainRecordModel_type fresh i p, plainRecordModel_no_type fresh i p⟩
  · intro i j p q hp hq hij hpid hqid
    have hi : i < docs.length := by
      by_contra hlt
      rw [List.getElem?_eq_none (by omega)] at hp
      exact Option.noConfusion hp
    have hj : j < docs.length := by
      by_contra hlt
      rw [List.getElem?_eq_none (by omega)] at hq
      exact Option.noConfusion hq
    rw [plainRecordModel_pk, plainRecordModel_pk, hpid, hqid]
    simp only [Option.getD_none, ne_eq, Option.some_inj]
    intro hcontra
    have hfr : fresh i = fresh j := by injection hcontra
    exact hfresh i j hi hj hij hfr

/-- A concrete three-draw fresh-identifier source for the C4 witness. -/
def c4fresh : Nat → String :=
  fun n => if n = 0 then "fresh-a" else if n = 1 then "fresh-b" else "fresh-c"

/-- A concrete batch for the C4 witness: two documents without an identifier
and one with an explicit identifier. -/
def c4docs : List PlainDoc :=
  [⟨none, [], "hello", "Document"⟩,
   ⟨none, [], "world", "Document"⟩,
   ⟨some "given-id", [], "stay", "Document"⟩]

/-- Witness for C4: the batch converts as described, the two identifier-less
documents receive the distinct fresh identifiers of their positions, and the
explicit identifier is preserved unchanged. -/
theorem C4_witness :
    _convert_upsert_data c4fresh (c4docs.map InDoc.plain) =
      .ok (c4docs.map InDoc.plain, plainRecsFrom c4fresh 0 c4docs) ∧
    dictGet (plainRecordModel c4fresh 0 ⟨none, [], "hello", "Document"⟩)
      default_keys[0]! = some (.vStr "fresh-a") ∧
    dictGet (plainRecordModel c4fresh 2 ⟨some "given-id", [], "stay", "Document"⟩)
      default_keys[0]! = some (.vStr "given-id") ∧
    dictGet (plainRecordModel c4fresh 0 ⟨none, [], "hello", "Document"⟩)
      default_keys[0]! ≠
      dictGet (plainRecordModel c4fresh 1 ⟨none, [], "world", "Document"⟩)
        default_keys[0]! := by
  have h := C4_plain_identifiers c4fresh c4docs (by simp [c4docs])
    (by
      intro i j hi hj hij
      simp only [c4docs, List.length_cons, List.length_nil] at hi hj
      interval_cases i <;> interval_cases j <;> simp_all [c4fresh])
  refine ⟨h.1, rfl, rfl, ?_⟩
  exact h.2.2 0 1 ⟨none, [], "hello", "Document"⟩ ⟨none, [], "world", "Document"⟩
    rfl rfl (by omega) rfl rfl

/-! ### C5: search-hit conversion -/

/-- The `score` entry already present in a hit's stored metadata, if any. -/
def storedMetaScore (r : SearchHit) : Option PyVal :=
  match dictGet r.entity "metadata" with
  | some (.vDict m) => dictGet m "score"
  | _ => none

/-- C5 counterexample: when the stored metadata of a hit already carries a
`score` entry, the plain-shape conversion does not inject the hit's distance —
`dict.setdefault` keeps the pre-existing value (here `99`, not the distance
`1/2`), contradicting the claim that each hit's distance is injected as the
`score` entry. -/
theorem C5_counterexample :
    _convert_response_to_document
      [⟨[("metadata", .vDict [("score", .vInt 99)])], (1 : ℚ)/2⟩] true =
      .ok [[("metadata", .vDict [("score", .vInt 99)]),
            ("embedding", .vNone), ("sparse_embedding", .vNone)]] ∧
    dictGet [("score", PyVal.vInt 99)] "score" = some (.vInt 99) ∧
    PyVal.vInt 99 ≠ PyVal.vFloat ((1 : ℚ)/2) :=
  ⟨rfl, rfl, fun h => PyVal.noConfusion h⟩

theorem docHitConvert_ok_spec (r : SearchHit) (d : Dict)
    (h : docHitConvert r true = .ok d) :
    dictGet d default_keys[1]! = some .vNone ∧
    dictGet d default_keys[2]! = some .vNone ∧
    ∃ m, dictGet d "metadata" = some (.vDict m) ∧
      dictGet m "score" = some ((storedMetaScore r).getD (.vFloat r.distance)) := by
  have hmeta : dictGet (dictSet (dictSet r.entity default_keys[1]! .vNone)
      default_keys[2]! .vNone) "metadata" = dictGet r.entity "metadata" := by
    rw [dictGet_dictSet_ne _ _ _ _ (by decide),
      dictGet_dictSet_ne _ _ _ _ (by decide)]
  have h1 : ∀ x : PyVal,
      dictGet (dictSet (dictSet (dictSet r.entity default_keys[1]! .vNone)
        default_keys[2]! .vNone) "metadata" x) default_keys[1]! =
        some .vNone := by
    intro x
    rw [dictGet_dictSet_ne _ _ _ _ (by decide),
      dictGet_dictSet_ne _ _ _ _ (by decide), dictGet_dictSet_self]
  have h2 : ∀ x : PyVal,
      dictGet (dictSet (dictSet (dictSet r.entity default_keys[1]! .vNone)
        default_keys[2]! .vNone) "metadata" x) default_keys[2]! =
        some .vNone := by
    intro x
    rw [dictGet_dictSet_ne _ _ _ _ (by decide), dictGet_dictSet_self]
  unfold docHitConvert at h
  simp only [if_true] at h
  cases hm : dictGet r.entity "metadata" with
  | none =>
    rw [hmeta, hm] at h
    simp only [Except.ok.injEq] at h
    subst h
    refine ⟨h1 _, h2 _, [("score", .vFloat r.distance)],
      dictGet_dictSet_self _ _ _, ?_⟩
    simp [storedMetaScore, hm, dictGet]
  | some v =>
    cases v with
    | vDict m =>
      rw [hmeta, hm] at h
      simp only [Except.ok.injEq] at h
      subst h
      by_cases hsc : dictContains m "score" = true
      · simp only [hsc, if_true]
        obtain ⟨w, hw⟩ := dictGet_some_of_contains m "score" hsc
        refine ⟨h1 _, h2 _, m, dictGet_dictSet_self _ _ _, ?_⟩
        simp [storedMetaScore, hm, hw]
      · have hsc2 : dictContains m "score" = false := by simpa using hsc
        simp only [hsc2, Bool.false_eq_true, if_false]
        refine ⟨h1 _, h2 _, m ++ [("score", .vFloat r.distance)],
          dictGet_dictSet_self _ _ _, ?_⟩
        rw [dictGet_append_self m "score" _ hsc2]
        simp [storedMetaScore, hm, dictGet_none_of_not_contains m "score" hsc2]
    | vNone => rw [hmeta, hm] at h; exact Except.noConfusion h
    | vBool b => rw [hmeta, hm] at h; exact Except.noConfusion h
    | vInt n => rw [hmeta, hm] at h; exact Except.noConfusion h
    | vFloat q => rw [hmeta, hm] at h; exact Except.noConfusion h
    | vStr s => rw [hmeta, hm] at h; exact Except.noConfusion h
    | vList xs => rw [hmeta, hm] at h; exact Except.noConfusion h

/-- C5 amended: the conversions return one typed document per hit in input
order.  For the node shape, each hit's distance becomes the wrapper's score
and (with `remove_vectors` true) the dense and sparse fields are nulled.  For
the plain shape, the vector fields are nulled and the document's metadata
carries a `score` entry that is the hit's distance only when the stored
metadata had no `score` entry of its own — a pre-existing entry is kept
unchanged (`dict.setdefault` semantics). -/
theorem C5_amended_hit_conversion (responses : List SearchHit) :
    _convert_response_to_node_with_score responses true =
      responses.map (fun r =>
        { node := dictSet (dictSet r.entity default_keys[1]! .vNone)
            default_keys[2]! .vNone,
          score := r.distance }) ∧
    (∀ r : SearchHit,
      dictGet (dictSet (dictSet r.entity default_keys[1]! .vNone)
        default_keys[2]! .vNone) default_keys[1]! = some .vNone ∧
      dictGet (dictSet (dictSet r.entity default_keys[1]! .vNone)
        default_keys[2]! .vNone) default_keys[2]! = some .vNone) ∧
    (∀ out, _convert_response_to_document responses true = .ok out →
      List.Forall₂ (fun (r : SearchHit) (d : Dict) =>
        dictGet d default_keys[1]! = some .vNone ∧
        dictGet d default_keys[2]! = some .vNone ∧
        ∃ m, dictGet d "metadata" = some (.vDict m) ∧
          dictGet m "score" =
            some ((storedMetaScore r).getD (.vFloat r.distance)))
        responses out) := by
  refine ⟨rfl, ?_, ?_⟩
  · intro r
    constructor
    · rw [dictGet_dictSet_ne _ _ _ _ (by decide), dictGet_dictSet_self]
    · rw [dictGet_dictSet_self]
  · induction responses with
    | nil =>
      intro out hout
      unfold _convert_response_to_document at hout
      simp only [Except.ok.injEq] at hout
      subst hout
      exact List.Forall₂.nil
    | cons r rest ih =>
      intro out hout
      unfold _convert_response_to_document at hout
      cases hd : docHitConvert r true with
      | error e => rw [hd] at hout; exact Except.noConfusion hout
      | ok d =>
        rw [hd] at hout
        cases hrest : _convert_response_to_document rest true with
        | error e => rw [hrest] at hout; exact Except.noConfusion hout
        | ok ds =>
          rw [hrest] at hout
          simp only [Except.ok.injEq] at hout
          subst hout
          exact List.Forall₂.cons (docHitConvert_ok_spec r d hd) (ih ds hrest)

/-- Witness for C5 amended: a hit whose stored metadata has no `score` entry
converts to a document with nulled vector fields and the distance injected as
its metadata `score`. -/
theorem C5_witness :
    List.Forall₂ (fun (r : SearchHit) (d : Dict) =>
        dictGet d default_keys[1]! = some .vNone ∧
        dictGet d default_keys[2]! = some .vNone ∧
        ∃ m, dictGet d "metadata" = some (.vDict m) ∧
          dictGet m "score" =
            some ((storedMetaScore r).getD (.vFloat r.distance)))
      [⟨[("text", .vStr "t")], (1 : ℚ)/2⟩]
      [[("text", .vStr "t"), ("embedding", .vNone), ("sparse_embedding", .vNone),
        ("metadata", .vDict [("score", .vFloat ((1 : ℚ)/2))])]] :=
  (C5_amended_hit_conversion [⟨[("text", .vStr "t")], (1 : ℚ)/2⟩]).2.2 _ rfl

/-! ### C10: node conversion mutates the caller's documents in place -/

/-- A node whose `file_path` metadata value is falsy (the empty string), for
the C10 counterexample. -/
def c10doc : NodeDoc :=
  ⟨"n1", some [(1 : ℚ)], [("file_path", .vStr "")],
   [("source", ⟨"n0", [("k", .vStr "v")]⟩)], "body"⟩

/-- C10 counterexample: after converting a batch holding a node whose
`file_path` metadata value is the empty string (falsy), the caller-visible
document still contains the `file_path` key — the source pops it only when
its value is truthy (`if documents[i].metadata.get("file_path"):`), so the
claim that the metadata no longer contains the key fails. -/
theorem C10_counterexample :
    _convert_upsert_data (fun _ => "unused") [.node c10doc] =
      .ok ([.node ⟨"n1", none, [("file_path", .vStr "")],
             [("source", ⟨"n0", []⟩)], "body"⟩],
           [[("id_", .vStr "n1"), ("embedding", .vNone),
             ("metadata", .vDict [("file_path", .vStr "")]),
             ("relationships", .vDict [("source",
               .vDict [("node_id", .vStr "n0"), ("metadata", .vDict [])])]),
             ("text", .vStr "body")]]) ∧
    dictContains (nodeMutate c10doc).metadata "file_path" = true :=
  ⟨rfl, rfl⟩

/-- C10 amended: converting a non-empty batch of node documents mutates the
caller-supplied objects in place — the caller-visible post-call state is the
mutated batch, and the produced records are its serializations.  On every
document: the embedding is nulled, the `file_path` metadata key is removed
when its stored value is truthy (it survives when the value is falsy, e.g. an
empty string), and every relationship entry's metadata mapping is emptied. -/
theorem C10_amended_node_mutation (fresh : Nat → String) (docs : List NodeDoc)
    (hne : docs ≠ []) :
    _convert_upsert_data fresh (docs.map InDoc.node) =
      .ok ((docs.map nodeMutate).map InDoc.node,
           (docs.map nodeMutate).map NodeDoc.dict) ∧
    ∀ n ∈ docs,
      (nodeMutate n).embedding = none ∧
      (pyTruthy ((dictGet n.metadata "file_path").getD .vNone) = true →
        dictContains (nodeMutate n).metadata "file_path" = false) ∧
      (pyTruthy ((dictGet n.metadata "file_path").getD .vNone) = false →
        (nodeMutate n).metadata = n.metadata) ∧
      (∀ kr ∈ (nodeMutate n).relationships, kr.2.metadata = []) := by
  constructor
  · have hextract : ∀ ds : List NodeDoc,
        extractNodes (ds.map InDoc.node) = some ds := by
      intro ds
      induction ds with
      | nil => rfl
      | cons a t ih => simp [extractNodes, ih]
    cases docs with
    | nil => exact absurd rfl hne
    | cons n rest =>
      have hstep : _convert_upsert_data fresh
          (InDoc.node n :: rest.map InDoc.node) =
          match extractNodes (InDoc.node n :: rest.map InDoc.node) with
          | none => .error .attributeError
          | some ns =>
            .ok ((ns.map nodeMutate).map InDoc.node,
                 (ns.map nodeMutate).map NodeDoc.dict) := rfl
      simp only [List.map_cons]
      rw [hstep]
      have hx := hextract (n :: rest)
      simp only [List.map_cons] at hx
      rw [hx]
      rfl
  · intro n hn
    refine ⟨rfl, ?_, ?_, ?_⟩
    · intro ht
      unfold nodeMutate
      simp only [ht, if_true]
      exact dictContains_dictRemove_self n.metadata "file_path"
    · intro hf
      unfold nodeMutate
      simp only [hf, Bool.false_eq_true, if_false]
    · intro kr hkr
      unfold nodeMutate at hkr
      simp only [List.mem_map] at hkr
      obtain ⟨orig, _, horig⟩ := hkr
      rw [← horig]

/-- A node with a truthy `file_path` metadata value, for the C10 witness. -/
def c10wdoc : NodeDoc :=
  ⟨"m1", some [(2 : ℚ)], [("file_path", .vStr "/tmp/source.txt")], [], "text"⟩

/-- Witness for C10 amended: the caller-visible state after the call is the
mutated node — embedding nulled and the truthy `file_path` key removed. -/
theorem C10_amended_witness :
    _convert_upsert_data (fun _ => "unused") ([c10wdoc].map InDoc.node) =
      .ok (([c10wdoc].map nodeMutate).map InDoc.node,
           ([c10wdoc].map nodeMutate).map NodeDoc.dict) ∧
    (nodeMutate c10wdoc).embedding = none ∧
    dictContains (nodeMutate c10wdoc).metadata "file_path" = false := by
  have h := C10_amended_node_mutation (fun _ => "unused") [c10wdoc]
    (by simp)
  exact ⟨h.1, (h.2 c10wdoc (by simp)).1,
    (h.2 c10wdoc (by simp)).2.1 rfl⟩

end MilvusStore
